import Mathlib

/-!
Verification development for the GenAiOps retrieval-augmented chat assistant.

The embedding covers:
* the pure decision logic of the weather tools in `backend/tools.py`
  (date parsing, 10-day forecast window, series lookup, null propagation);
* the agentic tool-routing loop of `backend/graph.py` / `backend/main.py`
  (reasoner step, conditional routing on tool calls, recursion limit,
  final-answer post-processing);
* the `/chat` endpoint envelope of `backend/api.py`;
* the retrieval glue of `backend/retriever.py` / `retriever_tool`.

External effects (HTTP fetches, the LLM, the vector index, the natural
language date parser) are modelled as explicit inputs: each function takes
the response the external world would produce, and exceptional paths of the
Python code (caught by its `try`/`except` blocks) are modelled as `none`
inputs or `none` results.  Numeric JSON payloads (temperatures,
coordinates, ...) are carried opaquely as integers: the code never computes
with them, it only moves them around.
-/

/-! ### Calendar dates (Python `datetime.date`) -/

/-- Gregorian leap-year rule, as implemented by Python's `calendar`/`datetime`. -/
def isLeapYear (y : Nat) : Bool :=
  y % 4 == 0 && (y % 100 != 0 || y % 400 == 0)

/-- Number of days in month `m` of year `y` (months are 1-based). -/
def daysInMonth (y m : Nat) : Nat :=
  if m = 2 then (if isLeapYear y then 29 else 28)
  else if m = 4 ∨ m = 6 ∨ m = 9 ∨ m = 11 then 30
  else 31

/-- A calendar date, mirroring Python's `datetime.date` (year, month, day). -/
structure Date where
  year : Nat
  month : Nat
  day : Nat
deriving DecidableEq, Repr

/-- Days in year `y` strictly before month `m`. -/
def daysBeforeMonth (y m : Nat) : Nat :=
  (List.range (m - 1)).foldl (fun acc i => acc + daysInMonth y (i + 1)) 0

/-- Rata-die day number of a date (days since 0000-12-31 in the proleptic
Gregorian calendar).  Python's `date` ordering and `timedelta` arithmetic
coincide with ordering and addition on this day number, which is how the
embedding renders `<` on dates and `+ timedelta(days=10)`. -/
def Date.toRataDie (d : Date) : Nat :=
  365 * (d.year - 1) + (d.year - 1) / 4 + (d.year - 1) / 400 - (d.year - 1) / 100
    + daysBeforeMonth d.year d.month + d.day

/-- Split a character list at every dash, keeping empty segments (the char
level rendering of splitting a string on `"-"`). -/
def splitDash : List Char → List (List Char)
  | [] => [[]]
  | c :: cs =>
    if c = '-' then [] :: splitDash cs
    else
      match splitDash cs with
      | [] => [[c]]
      | r :: rs => (c :: r) :: rs

/-- Decimal value of a digit list. -/
def digitsToNat (l : List Char) : Nat :=
  l.foldl (fun acc c => acc * 10 + (c.toNat - 48)) 0

/-- True when the segment is nonempty and all decimal digits. -/
def allDigits (l : List Char) : Bool :=
  !l.isEmpty && l.all Char.isDigit

/-- Embedding of `datetime.strptime(forecast_date, "%Y-%m-%d").date()` from
`get_weather_forecast` in `backend/tools.py`, returning `none` where Python
raises `ValueError`.  CPython's `_strptime` matches `%Y` against exactly four
digits and `%m`/`%d` against one or two digits with pattern-level range
limits; `datetime` construction then validates the day against the month
length and the year against `MINYEAR = 1`. -/
def parseDate (s : String) : Option Date :=
  match splitDash s.toList with
  | [ys, ms, ds] =>
    if ys.length = 4 ∧ allDigits ys = true
        ∧ 1 ≤ ms.length ∧ ms.length ≤ 2 ∧ allDigits ms = true
        ∧ 1 ≤ ds.length ∧ ds.length ≤ 2 ∧ allDigits ds = true then
      let y := digitsToNat ys
      let m := digitsToNat ms
      let d := digitsToNat ds
      if 1 ≤ y ∧ 1 ≤ m ∧ m ≤ 12 ∧ 1 ≤ d ∧ d ≤ daysInMonth y m then
        some ⟨y, m, d⟩
      else none
    else none
  | _ => none

/-- Left-pad the decimal rendering of `n` with zeros to width `w`. -/
def padZero (w n : Nat) : String :=
  let s := toString n
  String.join (List.replicate (w - s.length) "0") ++ s

/-- Embedding of `dt.strftime("%Y-%m-%d")` from
`get_weather_forecast_from_city_name_date_phrase` in `backend/tools.py`. -/
def Date.formatISO (d : Date) : String :=
  padZero 4 d.year ++ "-" ++ padZero 2 d.month ++ "-" ++ padZero 2 d.day

/-! ### Weather tool data (backend/tools.py) -/

/-- Numeric JSON payload, carried opaquely (the code never computes with
temperatures, wind speeds, ...; it only copies them between records). -/
abbrev Val := Int

/-- A geographic coordinate, likewise opaque to the code's logic. -/
abbrev Coord := Int

/-- One geocoding hit from the Nominatim response: the code reads the `lat`
and `lon` string fields of the first element only. -/
structure GeoHit where
  lat : String
  lon : String
deriving DecidableEq, Repr

/-- The record built by `get_weather` in `backend/tools.py` from the
`current_weather` object (each field via `.get`, hence optional). -/
structure CurrentWeather where
  temperature : Option Val
  windspeed : Option Val
  winddirection : Option Val
  weathercode : Option Val
  time : Option String
  rain : Option Val
  cloudcover : Option Val
deriving DecidableEq, Repr

/-- The `daily` object of the Open-Meteo forecast response consumed by
`get_weather_forecast`: parallel arrays keyed by ISO date strings.
`cloudcover_mean` is read with `daily_data.get("cloudcover_mean", [None])`,
so it may be absent (`none`). -/
structure DailyData where
  time : List String
  temperature_2m_max : List Val
  temperature_2m_min : List Val
  precipitation_sum : List Val
  cloudcover_mean : Option (List Val)
deriving DecidableEq, Repr

/-- The result record returned by `get_weather_forecast` on success.
`cloudcover_mean` is `none` exactly when the response lacked the
`cloudcover_mean` array and the matched index was 0 (Python indexes the
default `[None]`). -/
structure ForecastEntry where
  date : String
  temperature_max : Val
  temperature_min : Val
  precipitation_sum : Val
  cloudcover_mean : Option Val
deriving DecidableEq, Repr

/-- Observable outcome of one `get_weather_forecast` call: the returned
value, plus whether the HTTP forecast fetch was performed (the fetch sits
after the date parse and the range check in the source). -/
structure ForecastOutcome where
  result : Option ForecastEntry
  fetched : Bool
deriving DecidableEq, Repr

/-- The external world as seen by the weather tools: geocoding and weather
HTTP responses (`none` models a network/shape failure caught by the
`except` blocks), Python's `float` conversion, the two clock reads, and the
`dateparser.parse` library call (date component of its result, `none` when
it cannot parse the phrase). -/
structure WeatherWorld where
  pyFloat : String → Option Coord
  geo : String → String → Option (List GeoHit)
  current : Coord → Coord → Option CurrentWeather
  forecast : Coord → Coord → Option DailyData
  today : Date
  nowBerlin : Date
  dateparse : String → Option Date

/-- Index of the first occurrence of `a` in `l`, as Python's `list.index`
(the code only calls it under an `in` guard). -/
def pyIndex : List String → String → Nat
  | [], _ => 0
  | x :: xs, a => if x = a then 0 else pyIndex xs a + 1

/-- Embedding of `get_latitude_longitude` in `backend/tools.py`: `none` on a
failed request (`URLError` etc.), `none` on an empty result list (`if data:`
is false for `[]`), otherwise the first hit's `lat`/`lon` converted by
`float` (a `ValueError` there is caught and yields `none`). -/
def get_latitude_longitude (pyFloat : String → Option Coord)
    (resp : Option (List GeoHit)) : Option (Coord × Coord) :=
  match resp with
  | none => none
  | some [] => none
  | some (hit :: _) =>
    match pyFloat hit.lat, pyFloat hit.lon with
    | some la, some lo => some (la, lo)
    | _, _ => none

/-- Embedding of `get_weather_forecast` in `backend/tools.py`.  The steps in
source order: parse the date string (`ValueError` yields `none` before any
fetch), reject dates outside `[today, today + timedelta(days=10)]` (again
before any fetch), then fetch and look the date up in the `daily.time`
series by exact string match, indexing the parallel arrays (an
`IndexError`/`KeyError` there is caught and yields `none`). -/
def get_weather_forecast (w : WeatherWorld) (lat lon : Coord)
    (forecast_date : String) : ForecastOutcome :=
  match parseDate forecast_date with
  | none => ⟨none, false⟩
  | some requested =>
    if requested.toRataDie < w.today.toRataDie
        ∨ w.today.toRataDie + 10 < requested.toRataDie then
      ⟨none, false⟩
    else
      match w.forecast lat lon with
      | none => ⟨none, true⟩
      | some dd =>
        if forecast_date ∈ dd.time then
          let idx := pyIndex dd.time forecast_date
          match dd.temperature_2m_max.get? idx, dd.temperature_2m_min.get? idx,
              dd.precipitation_sum.get? idx with
          | some tmax, some tmin, some prec =>
            match dd.cloudcover_mean with
            | some cc =>
              match cc.get? idx with
              | some cv => ⟨some ⟨forecast_date, tmax, tmin, prec, some cv⟩, true⟩
              | none => ⟨none, true⟩
            | none =>
              if idx = 0 then ⟨some ⟨forecast_date, tmax, tmin, prec, none⟩, true⟩
              else ⟨none, true⟩
          | _, _, _ => ⟨none, true⟩
        else ⟨none, true⟩

/-- Embedding of the tool `get_weather_from_city_name` in `backend/tools.py`:
geocode, and on success fetch the current weather for the first hit's
coordinates (the fetch-and-extract of `get_weather` is abstracted as the
world's `current` response); `none` when geocoding yields nothing. -/
def get_weather_from_city_name (w : WeatherWorld) (city country : String) :
    Option CurrentWeather :=
  match get_latitude_longitude w.pyFloat (w.geo city country) with
  | some (la, lo) => w.current la lo
  | none => none

/-- Embedding of the tool `get_weather_forecast_from_city_name` in
`backend/tools.py`: geocode, then delegate to `get_weather_forecast`. -/
def get_weather_forecast_from_city_name (w : WeatherWorld)
    (city country forecast_date : String) : Option ForecastEntry :=
  match get_latitude_longitude w.pyFloat (w.geo city country) with
  | some (la, lo) => (get_weather_forecast w la lo forecast_date).result
  | none => none

/-- Embedding of the tool `get_weather_forecast_from_city_name_date_phrase`
in `backend/tools.py`: resolve the phrase with `dateparser.parse` relative
to Berlin time, fall back to `now` when parsing fails (`dt is None`), format
as `YYYY-MM-DD` and delegate to `get_weather_forecast_from_city_name`. -/
def get_weather_forecast_from_city_name_date_phrase (w : WeatherWorld)
    (city country date_phrase : String) : Option ForecastEntry :=
  let dt := match w.dateparse date_phrase with
    | some d => d
    | none => w.nowBerlin
  get_weather_forecast_from_city_name w city country dt.formatISO

/-! ### Messages and the tool-routing graph (backend/graph.py, backend/main.py) -/

/-- A JSON-ish value as it appears inside structured model content: either a
plain string or a flat object (string keys to string values), enough to host
the part dictionaries that `answer_query` filters. -/
inductive PyVal where
  | str : String → PyVal
  | dict : List (String × String) → PyVal
deriving DecidableEq, Repr

/-- Message content as produced by the model: plain text, or a sequence of
typed parts (Gemini grounding output). -/
inductive MsgContent where
  | text : String → MsgContent
  | parts : List PyVal → MsgContent
deriving DecidableEq, Repr

/-- One tool-call request emitted by the model (name, serialized arguments,
correlation id). -/
structure ToolCall where
  name : String
  args : String
  id : String
deriving DecidableEq, Repr

/-- A LangChain message as used by the graph: system, human, AI (with its
tool-call requests) or tool-result (correlated by id). -/
inductive Message where
  | system : String → Message
  | human : String → Message
  | ai : MsgContent → List ToolCall → Message
  | toolResult : String → String → Message
deriving DecidableEq, Repr

/-- The `tool_calls` attribute read by `check_for_tools`: nonempty only on
AI messages. -/
def Message.tool_calls : Message → List ToolCall
  | .ai _ tcs => tcs
  | _ => []

/-- The `content` attribute of a message. -/
def Message.content : Message → MsgContent
  | .system s => .text s
  | .human s => .text s
  | .ai c _ => c
  | .toolResult _ s => .text s

/-- The system prompt from `backend/config.py`. -/
def SYSTEM_PROMPT : String :=
  "\nYou are a helpful assistant. Your purpose is to answer questions regarding the weather and internal documents.\n\nYou have the following tools:\n- \"get_weather_from_city_name\": Get the current weather for a given city and country.\n- \"get_weather_forecast_from_city_name\": Get the weather forecast for a given city and country.\n- \"get_weather_forecast_from_city_name_date_phrase\": Get the weather forecast for a given city and country based on a natural language date phrase.\n- \"Retriever\": Access the internal documents.\nAlways search the internal documents first before using your internal knowledge.\nWhen the user asks for weather, you MUST use the \"get_weather_from_city_name\" tool. Do not rely on your own knowledge.\nWhen the user asks for weather forecast, you MUST use the \"get_weather_forecast_from_city_name\" tool. Do not rely on your own knowledge.\nIf the user is using a relative phrase like \"tomorrow\", \"next Friday\", \"next week\", etc., use the \"get_weather_forecast_from_city_name_date_phrase\" tool.\nWhen the user asks for other questions, you should use the \"Retriever\" tool.\n"

/-- The `SystemMessage(content=SYSTEM_PROMPT)` prepended by `reasoner_node`. -/
def systemMessage : Message := .system SYSTEM_PROMPT

/-- The message list handed to the LLM by `reasoner_node` in
`backend/graph.py`: the system prompt followed by the accumulated state. -/
def reasonerInput (msgs : List Message) : List Message :=
  systemMessage :: msgs

/-- Embedding of `check_for_tools` in `backend/graph.py`: route to the tool
node when the last message carries tool calls, otherwise to END.  The graph
only evaluates it right after `reasoner_node` appended an AI message, so the
list is never empty there; the `none` arm is unreachable in context. -/
def check_for_tools (msgs : List Message) : String :=
  match msgs.getLast? with
  | some m => if m.tool_calls.isEmpty then "end" else "tools"
  | none => "end"

/-- What the LLM adapter returns for one reasoner invocation: content plus
the (possibly empty) list of tool-call requests. -/
structure AssistantResponse where
  content : MsgContent
  tool_calls : List ToolCall
deriving DecidableEq, Repr

/-- Terminal outcome of one graph invocation: a final answer (reached END),
or aborted because the step budget ran out (LangGraph's
`GraphRecursionError`). -/
inductive Outcome where
  | done : MsgContent → Outcome
  | aborted : Outcome
deriving DecidableEq, Repr

/-- Observable result of running the graph: the outcome, the accumulated
message state, the number of dispatch cycles executed (tool-node visits),
and the trace of message lists handed to the LLM adapter. -/
structure OrchResult where
  outcome : Outcome
  messages : List Message
  dispatchCycles : Nat
  adapterInputs : List (List Message)
deriving DecidableEq, Repr

/-- Modelled from the spec: the reasoner ⇄ tool-dispatch loop that LangGraph's
runtime executes for the graph wired in `build_graph` (`backend/graph.py`) —
the runtime itself is a third-party library, so its step-budget semantics is
taken from the specification's state machine (§4.3).  Each budget unit
allows one reasoner invocation; the assistant message is appended, routing
follows `check_for_tools`, tool results are appended in request order, and
an exhausted budget aborts the run (the spec's `Aborted`).  Structural
recursion on the budget makes termination a theorem of the model. -/
def runOrch (adapter : List Message → AssistantResponse)
    (execTool : ToolCall → String) : Nat → List Message → OrchResult
  | 0, msgs => ⟨.aborted, msgs, 0, []⟩
  | budget + 1, msgs =>
    let resp := adapter (reasonerInput msgs)
    let afterAI := msgs ++ [Message.ai resp.content resp.tool_calls]
    if check_for_tools afterAI = "tools" then
      let results := resp.tool_calls.map fun tc =>
        Message.toolResult tc.id (execTool tc)
      let rest := runOrch adapter execTool budget (afterAI ++ results)
      ⟨rest.outcome, rest.messages, rest.dispatchCycles + 1,
        reasonerInput msgs :: rest.adapterInputs⟩
    else
      ⟨.done resp.content, afterAI, 0, [reasonerInput msgs]⟩

/-- Python `dict.get` on the flat objects carried in structured content. -/
def dictGet (d : List (String × String)) (k : String) : Option String :=
  match d.find? (fun kv => kv.1 == k) with
  | some kv => some kv.2
  | none => none

/-- The loop body of the final-answer post-processing in `answer_query`
(`backend/main.py`): a part contributes its `text` field (defaulting to
`""`) exactly when it is a dict whose `type` is `"text"`; any other part is
discarded. -/
def textPartOf : PyVal → Option String
  | .dict d =>
    if dictGet d "type" = some "text" then some ((dictGet d "text").getD "")
    else none
  | .str _ => none

/-- Embedding of the final-answer post-processing in `answer_query`
(`backend/main.py`): a plain string passes through; a list keeps exactly the
dict parts whose `type` is `"text"`, joining their `text` fields with
`''.join`. -/
def postprocess_answer : MsgContent → String
  | .text s => s
  | .parts l => String.join (l.filterMap textPartOf)

/-- The `recursion_limit` configured in `answer_query` (`backend/main.py`). -/
def recursion_limit : Nat := 50

/-- Embedding of `answer_query` in `backend/main.py`: seed the state with
the caller-supplied history plus the new user message, run the graph under
`recursion_limit`, and post-process the last message's content.  A budget
exhaustion surfaces as the exception LangGraph raises. -/
def answer_query (adapter : List Message → AssistantResponse)
    (execTool : ToolCall → String) (user_query : String)
    (chat_history : List Message) : Except String String :=
  let result := runOrch adapter execTool recursion_limit
    (chat_history ++ [Message.human user_query])
  match result.outcome with
  | .aborted => .error "GraphRecursionError"
  | .done _ =>
    .ok (postprocess_answer
      (((result.messages.getLast?).map Message.content).getD (.text "")))

/-! ### The /chat endpoint (backend/api.py) -/

/-- The response body of `POST /chat`: always a single `response` string. -/
structure ChatResponse where
  response : String
deriving DecidableEq, Repr

/-- Embedding of the `chat` handler in `backend/api.py` after history
conversion: the whole body sits in a `try`, so an exception from
`answer_query` (the `Except.error` case) is converted to an in-band error
string; an empty answer (`if not full_response:`) yields the apology;
otherwise the answer is passed through. -/
def chat (answer : Except String String) : ChatResponse :=
  match answer with
  | .error e => ⟨"A error occurred: " ++ e⟩
  | .ok full =>
    if full = "" then ⟨"Sorry, I was not able to generate an answer."⟩
    else ⟨full⟩

/-! ### Retrieval (backend/retriever.py, retriever_tool in backend/tools.py) -/

/-- A retrieved document: the code only reads `page_content`. -/
structure Document where
  page_content : String
deriving DecidableEq, Repr

/-- Embedding of `QdrantRetrievalService`: the vector store's similarity
search (query text and `k` to the list of hits, in relevance order) plus the
`top_k` fixed at construction. -/
structure QdrantRetrievalService where
  search : String → Nat → List Document
  top_k : Nat

/-- The default of the `top_k` parameter of `QdrantRetrievalService.__init__`. -/
def default_top_k : Nat := 5

/-- Embedding of `QdrantRetrievalService.query`: invoke the retriever, which
was built with `search_kwargs` k = `top_k`. -/
def QdrantRetrievalService.query (s : QdrantRetrievalService)
    (input_text : String) : List Document :=
  s.search input_text s.top_k

/-- Embedding of `get_retriever` in `backend/retriever.py`: constructs the
service without passing `top_k`, so the default applies. -/
def get_retriever (search : String → Nat → List Document) :
    QdrantRetrievalService :=
  ⟨search, default_top_k⟩

/-- Embedding of `retriever_tool` in `backend/tools.py`: query the retriever
and join the page contents with blank-line separators. -/
def retriever_tool (retriever : QdrantRetrievalService) (query : String) :
    String :=
  String.intercalate "\n\n" ((retriever.query query).map Document.page_content)

/-! ### Concrete sample inputs used to evaluate the model -/

/-- An adapter that requests a tool call on every invocation. -/
def alwaysToolAdapter : List Message → AssistantResponse :=
  fun _ => ⟨.text "", [⟨"get_weather_from_city_name", "Berlin, Germany", "call-1"⟩]⟩

/-- An adapter that immediately produces a final textual answer. -/
def finalAnswerAdapter : List Message → AssistantResponse :=
  fun _ => ⟨.text "It is sunny.", []⟩

/-- A tool executor returning a fixed payload. -/
def constExec : ToolCall → String :=
  fun _ => "tool-output"

/-- A one-day forecast series dated ten days after `sampleWorld.today`. -/
def sampleDaily : DailyData :=
  ⟨["2026-10-22"], [19], [9], [0], some [55]⟩

/-- A concrete external world: one geocoding hit, a fixed current-weather
response, `sampleDaily` as the forecast series, clocks on 2026-10-12, and a
date-phrase parser that never succeeds. -/
def sampleWorld : WeatherWorld :=
  ⟨fun _ => some 0,
   fun _ _ => some [⟨"52.52", "13.40"⟩],
   fun _ _ => some ⟨some 18, some 10, some 200, some 3, some "2026-10-12T12:00", some 0, some 40⟩,
   fun _ _ => some sampleDaily,
   ⟨2026, 10, 12⟩,
   ⟨2026, 10, 12⟩,
   fun _ => none⟩

/-- A world whose geocoding request succeeds but matches nothing. -/
def emptyGeoWorld : WeatherWorld :=
  ⟨fun _ => some 0,
   fun _ _ => some [],
   fun _ _ => some ⟨some 18, some 10, some 200, some 3, some "2026-10-12T12:00", some 0, some 40⟩,
   fun _ _ => some sampleDaily,
   ⟨2026, 10, 12⟩,
   ⟨2026, 10, 12⟩,
   fun _ => none⟩

/-! ## Helper lemmas -/

theorem check_for_tools_of_append (ms : List Message) (m : Message) :
    check_for_tools (ms ++ [m]) = if m.tool_calls.isEmpty then "end" else "tools" := by
  unfold check_for_tools
  rw [List.getLast?_concat]

theorem runOrch_step_tools (adapter : List Message → AssistantResponse)
    (execTool : ToolCall → String) (n : Nat) (ms : List Message)
    (hc : (adapter (reasonerInput ms)).tool_calls ≠ []) :
    runOrch adapter execTool (n + 1) ms =
      ⟨(runOrch adapter execTool n
          (ms ++ [Message.ai (adapter (reasonerInput ms)).content
              (adapter (reasonerInput ms)).tool_calls]
            ++ (adapter (reasonerInput ms)).tool_calls.map fun tc =>
              Message.toolResult tc.id (execTool tc))).outcome,
       (runOrch adapter execTool n
          (ms ++ [Message.ai (adapter (reasonerInput ms)).content
              (adapter (reasonerInput ms)).tool_calls]
            ++ (adapter (reasonerInput ms)).tool_calls.map fun tc =>
              Message.toolResult tc.id (execTool tc))).messages,
       (runOrch adapter execTool n
          (ms ++ [Message.ai (adapter (reasonerInput ms)).content
              (adapter (reasonerInput ms)).tool_calls]
            ++ (adapter (reasonerInput ms)).tool_calls.map fun tc =>
              Message.toolResult tc.id (execTool tc))).dispatchCycles + 1,
       reasonerInput ms ::
        (runOrch adapter execTool n
          (ms ++ [Message.ai (adapter (reasonerInput ms)).content
              (adapter (reasonerInput ms)).tool_calls]
            ++ (adapter (reasonerInput ms)).tool_calls.map fun tc =>
              Message.toolResult tc.id (execTool tc))).adapterInputs⟩ := by
  have hroute : check_for_tools
      (ms ++ [Message.ai (adapter (reasonerInput ms)).content
        (adapter (reasonerInput ms)).tool_calls]) = "tools" := by
    rw [check_for_tools_of_append]
    cases hcase : (adapter (reasonerInput ms)).tool_calls with
    | nil => exact absurd hcase hc
    | cons a t => rfl
  simp only [runOrch]
  rw [if_pos hroute]

theorem runOrch_step_done (adapter : List Message → AssistantResponse)
    (execTool : ToolCall → String) (n : Nat) (ms : List Message)
    (hc : (adapter (reasonerInput ms)).tool_calls = []) :
    runOrch adapter execTool (n + 1) ms =
      ⟨Outcome.done (adapter (reasonerInput ms)).content,
       ms ++ [Message.ai (adapter (reasonerInput ms)).content
         (adapter (reasonerInput ms)).tool_calls],
       0, [reasonerInput ms]⟩ := by
  have hroute : check_for_tools
      (ms ++ [Message.ai (adapter (reasonerInput ms)).content
        (adapter (reasonerInput ms)).tool_calls]) = "end" := by
    rw [check_for_tools_of_append]
    rw [hc]
    rfl
  have hne : ¬ check_for_tools
      (ms ++ [Message.ai (adapter (reasonerInput ms)).content
        (adapter (reasonerInput ms)).tool_calls]) = "tools" := by
    rw [hroute]
    decide
  simp only [runOrch]
  rw [if_neg hne]

/-! ## Claims -/

/-- C1: For every step budget N ≥ 1, running the orchestration loop with an
adapter that requests at least one tool call on every invocation terminates
in the aborted outcome after exactly N dispatch cycles (the loop is
structurally recursive on the budget, so it never runs unbounded), and the
configured default budget `recursion_limit` is 50. -/
theorem orchestration_always_tools_aborts_after_budget
    (adapter : List Message → AssistantResponse) (execTool : ToolCall → String)
    (msgs : List Message) (N : Nat) (hN : 1 ≤ N)
    (h : ∀ input, (adapter input).tool_calls ≠ []) :
    (runOrch adapter execTool N msgs).outcome = Outcome.aborted
    ∧ (runOrch adapter execTool N msgs).dispatchCycles = N
    ∧ recursion_limit = 50 := by
  have key : ∀ (M : Nat) (ms : List Message),
      (runOrch adapter execTool M ms).outcome = Outcome.aborted
      ∧ (runOrch adapter execTool M ms).dispatchCycles = M := by
    intro M
    induction M with
    | zero => exact fun ms => ⟨rfl, rfl⟩
    | succ n ih =>
      intro ms
      rw [runOrch_step_tools adapter execTool n ms (h (reasonerInput ms))]
      exact ⟨(ih _).1, by rw [(ih _).2]⟩
  exact ⟨(key N msgs).1, (key N msgs).2, rfl⟩

/-- Witness for C1: at budget 2 with `alwaysToolAdapter`, the run aborts
after exactly 2 dispatch cycles. -/
theorem orchestration_always_tools_aborts_after_budget_witness :
    (1 ≤ 2 ∧ ∀ input, (alwaysToolAdapter input).tool_calls ≠ [])
    ∧ ((runOrch alwaysToolAdapter constExec 2 []).outcome = Outcome.aborted
      ∧ (runOrch alwaysToolAdapter constExec 2 []).dispatchCycles = 2
      ∧ recursion_limit = 50) :=
  ⟨⟨by decide, fun input => List.cons_ne_nil _ _⟩,
    orchestration_always_tools_aborts_after_budget alwaysToolAdapter constExec []
      2 (by decide) (fun input => List.cons_ne_nil _ _)⟩

/-- C6: When the adapter's response carries no tool-call requests, the graph
goes from the reasoner straight to END in a single cycle (zero dispatch
cycles) with that response's content as the final answer and only the
assistant message appended; `check_for_tools` routes an appended message
without tool calls to "end" and one with tool calls to "tools". -/
theorem reasoner_without_tool_calls_is_done
    (adapter : List Message → AssistantResponse) (execTool : ToolCall → String)
    (msgs : List Message) (b : Nat)
    (h : (adapter (reasonerInput msgs)).tool_calls = []) :
    (runOrch adapter execTool (b + 1) msgs).outcome
        = Outcome.done (adapter (reasonerInput msgs)).content
    ∧ (runOrch adapter execTool (b + 1) msgs).dispatchCycles = 0
    ∧ (runOrch adapter execTool (b + 1) msgs).messages
        = msgs ++ [Message.ai (adapter (reasonerInput msgs)).content []]
    ∧ (∀ (ms : List Message) (m : Message), m.tool_calls = [] →
        check_for_tools (ms ++ [m]) = "end")
    ∧ (∀ (ms : List Message) (m : Message), m.tool_calls ≠ [] →
        check_for_tools (ms ++ [m]) = "tools") := by
  rw [runOrch_step_done adapter execTool b msgs h]
  refine ⟨rfl, rfl, by rw [h], ?_, ?_⟩
  · intro ms m hm
    rw [check_for_tools_of_append, hm]
    rfl
  · intro ms m hm
    rw [check_for_tools_of_append]
    cases hcase : m.tool_calls with
    | nil => exact absurd hcase hm
    | cons a t => rfl

/-- Witness for C6: `finalAnswerAdapter` produces no tool calls, and the run
at budget 1 ends done with its text in a single cycle. -/
theorem reasoner_without_tool_calls_is_done_witness :
    (finalAnswerAdapter (reasonerInput [])).tool_calls = []
    ∧ ((runOrch finalAnswerAdapter constExec 1 []).outcome
        = Outcome.done (MsgContent.text "It is sunny.")
      ∧ (runOrch finalAnswerAdapter constExec 1 []).dispatchCycles = 0) :=
  ⟨rfl,
    ⟨(reasoner_without_tool_calls_is_done finalAnswerAdapter constExec [] 0 rfl).1,
     (reasoner_without_tool_calls_is_done finalAnswerAdapter constExec [] 0 rfl).2.1⟩⟩

/-- C8: The message list handed to the LLM on entry is the system prompt,
then the caller-supplied history, then the new user message; across the
whole run the state only grows: the final message list extends the initial
one, and every adapter input extends the first reasoner input (so earlier
messages are never removed or reordered). -/
theorem conversation_state_append_only
    (adapter : List Message → AssistantResponse) (execTool : ToolCall → String)
    (history : List Message) (user_query : String) (N : Nat) :
    reasonerInput (history ++ [Message.human user_query])
      = systemMessage :: (history ++ [Message.human user_query])
    ∧ (∀ msgs : List Message, ∃ t,
        (runOrch adapter execTool N msgs).messages = msgs ++ t)
    ∧ (∀ (msgs inp : List Message),
        inp ∈ (runOrch adapter execTool N msgs).adapterInputs →
        ∃ t, inp = reasonerInput msgs ++ t) := by
  refine ⟨rfl, ?_, ?_⟩
  · induction N with
    | zero => exact fun msgs => ⟨[], by rw [List.append_nil]; rfl⟩
    | succ n ih =>
      intro msgs
      by_cases h : (adapter (reasonerInput msgs)).tool_calls = []
      · rw [runOrch_step_done adapter execTool n msgs h]
        exact ⟨_, rfl⟩
      · rw [runOrch_step_tools adapter execTool n msgs h]
        dsimp only
        obtain ⟨t, ht⟩ := ih
          (msgs ++ [Message.ai (adapter (reasonerInput msgs)).content
              (adapter (reasonerInput msgs)).tool_calls]
            ++ (adapter (reasonerInput msgs)).tool_calls.map fun tc =>
              Message.toolResult tc.id (execTool tc))
        exact ⟨[Message.ai (adapter (reasonerInput msgs)).content
              (adapter (reasonerInput msgs)).tool_calls]
            ++ ((adapter (reasonerInput msgs)).tool_calls.map fun tc =>
              Message.toolResult tc.id (execTool tc)) ++ t,
          by rw [ht]; simp only [List.append_assoc]⟩
  · induction N with
    | zero =>
      intro msgs inp hmem
      exact absurd hmem (List.not_mem_nil _)
    | succ n ih =>
      intro msgs inp hmem
      by_cases h : (adapter (reasonerInput msgs)).tool_calls = []
      · rw [runOrch_step_done adapter execTool n msgs h] at hmem
        rw [List.mem_singleton] at hmem
        exact ⟨[], by rw [hmem, List.append_nil]⟩
      · rw [runOrch_step_tools adapter execTool n msgs h] at hmem
        rcases List.mem_cons.mp hmem with heq | hmem2
        · exact ⟨[], by rw [heq, List.append_nil]⟩
        · obtain ⟨t, ht⟩ := ih _ inp hmem2
          refine ⟨[Message.ai (adapter (reasonerInput msgs)).content
                  (adapter (reasonerInput msgs)).tool_calls]
              ++ ((adapter (reasonerInput msgs)).tool_calls.map fun tc =>
                Message.toolResult tc.id (execTool tc)) ++ t, ?_⟩
          rw [ht]
          simp [reasonerInput, List.append_assoc]

/-- Witness for C8: at budget 1 with a final-answer adapter and empty
history, the sole adapter input is the system prompt alone, and it extends
the initial reasoner input. -/
theorem conversation_state_append_only_witness :
    [systemMessage] ∈ (runOrch finalAnswerAdapter constExec 1 []).adapterInputs
    ∧ ∃ t, ([systemMessage] : List Message) = reasonerInput [] ++ t := by
  have hmem : [systemMessage]
      ∈ (runOrch finalAnswerAdapter constExec 1 []).adapterInputs := by
    rw [runOrch_step_done finalAnswerAdapter constExec 0 [] rfl]
    exact List.mem_singleton.mpr rfl
  exact ⟨hmem,
    (conversation_state_append_only finalAnswerAdapter constExec [] "hi" 1).2.2
      [] [systemMessage] hmem⟩

theorem stringFoldlAppend (l : List String) (a b : String) :
    List.foldl (fun r s => r ++ s) (a ++ b) l
      = a ++ List.foldl (fun r s => r ++ s) b l := by
  induction l generalizing b with
  | nil => rfl
  | cons x xs ih =>
    simp only [List.foldl_cons, String.append_assoc]
    exact ih (b ++ x)

theorem stringJoinCons (x : String) (xs : List String) :
    String.join (x :: xs) = x ++ String.join xs :=
  calc String.join (x :: xs)
      = List.foldl (fun r s => r ++ s) ("" ++ x) xs := rfl
    _ = List.foldl (fun r s => r ++ s) (x ++ "") xs := by
        rw [String.empty_append, String.append_empty]
    _ = x ++ String.join xs := stringFoldlAppend xs x ""

theorem stringJoinAppend (a b : List String) :
    String.join (a ++ b) = String.join a ++ String.join b := by
  induction a with
  | nil =>
    show String.join b = "" ++ String.join b
    rw [String.empty_append]
  | cons x xs ih =>
    simp only [List.cons_append, stringJoinCons, ih, String.append_assoc]

/-- C5: Post-processing of structured final content keeps exactly the parts
whose `type` is `"text"`, concatenating their text in order: the reference
three-part sequence yields `"AB"`; inserting a dict part whose type is not
`"text"`, or a non-dict part, anywhere leaves the result unchanged; and a
text part contributes its text at its position. -/
theorem structured_answer_extracts_text_parts
    (l1 l2 : List PyVal) (d : List (String × String)) (s txt : String)
    (hd : dictGet d "type" ≠ some "text") :
    postprocess_answer (MsgContent.parts
      [PyVal.dict [("type", "text"), ("text", "A")],
       PyVal.dict [("type", "image"), ("url", "about:blank")],
       PyVal.dict [("type", "text"), ("text", "B")]]) = "AB"
    ∧ postprocess_answer (MsgContent.parts (l1 ++ PyVal.dict d :: l2))
        = postprocess_answer (MsgContent.parts (l1 ++ l2))
    ∧ postprocess_answer (MsgContent.parts (l1 ++ PyVal.str s :: l2))
        = postprocess_answer (MsgContent.parts (l1 ++ l2))
    ∧ postprocess_answer (MsgContent.parts
          (l1 ++ PyVal.dict [("type", "text"), ("text", txt)] :: l2))
        = postprocess_answer (MsgContent.parts l1) ++ txt
            ++ postprocess_answer (MsgContent.parts l2) := by
  have hne : textPartOf (PyVal.dict d) = none := by
    simp only [textPartOf]
    rw [if_neg hd]
  have htxt : textPartOf (PyVal.dict [("type", "text"), ("text", txt)])
      = some txt := rfl
  refine ⟨by decide, ?_, ?_, ?_⟩
  · simp only [postprocess_answer, List.filterMap_append, List.filterMap_cons,
      hne]
  · simp only [postprocess_answer, List.filterMap_append, List.filterMap_cons,
      textPartOf]
  · simp only [postprocess_answer, List.filterMap_append, List.filterMap_cons,
      htxt, stringJoinAppend, stringJoinCons, String.append_assoc]

/-- Witness for C5: the image part of the reference sequence is not
text-typed, and dropping it leaves the post-processed answer unchanged. -/
theorem structured_answer_extracts_text_parts_witness :
    dictGet [("type", "image"), ("url", "about:blank")] "type" ≠ some "text"
    ∧ postprocess_answer (MsgContent.parts
        ([PyVal.dict [("type", "text"), ("text", "A")]]
          ++ PyVal.dict [("type", "image"), ("url", "about:blank")]
            :: [PyVal.dict [("type", "text"), ("text", "B")]]))
      = postprocess_answer (MsgContent.parts
        ([PyVal.dict [("type", "text"), ("text", "A")]]
          ++ [PyVal.dict [("type", "text"), ("text", "B")]])) :=
  ⟨by decide,
    (structured_answer_extracts_text_parts
      [PyVal.dict [("type", "text"), ("text", "A")]]
      [PyVal.dict [("type", "text"), ("text", "B")]]
      [("type", "image"), ("url", "about:blank")] "unused" "unused"
      (by decide)).2.1⟩

/-- C2: The forecast-by-date operation returns an entry only when the
requested date parses, lies in the window from today to today plus 10 days
inclusive, and appears in the daily series by exact string match; a date 11
days out yields null before any fetch; a date absent from the series yields
null; and a date exactly 10 days out that is present (with the parallel
arrays populated at the matched index) yields the entry read off at that
index. -/
theorem forecast_date_window (w : WeatherWorld) (lat lon : Coord) (d : String) :
    (∀ e, (get_weather_forecast w lat lon d).result = some e →
      ∃ req dd, parseDate d = some req ∧ w.forecast lat lon = some dd
        ∧ d ∈ dd.time
        ∧ w.today.toRataDie ≤ req.toRataDie
        ∧ req.toRataDie ≤ w.today.toRataDie + 10)
    ∧ (∀ req, parseDate d = some req →
        req.toRataDie = w.today.toRataDie + 11 →
        get_weather_forecast w lat lon d = ⟨none, false⟩)
    ∧ (∀ req dd, parseDate d = some req →
        w.forecast lat lon = some dd → d ∉ dd.time →
        (get_weather_forecast w lat lon d).result = none)
    ∧ (∀ req dd tmax tmin prec cc cv, parseDate d = some req →
        req.toRataDie = w.today.toRataDie + 10 →
        w.forecast lat lon = some dd → d ∈ dd.time →
        dd.temperature_2m_max.get? (pyIndex dd.time d) = some tmax →
        dd.temperature_2m_min.get? (pyIndex dd.time d) = some tmin →
        dd.precipitation_sum.get? (pyIndex dd.time d) = some prec →
        dd.cloudcover_mean = some cc →
        cc.get? (pyIndex dd.time d) = some cv →
        (get_weather_forecast w lat lon d).result
          = some ⟨d, tmax, tmin, prec, some cv⟩) := by
  refine ⟨?_, ?_, ?_, ?_⟩
  · intro e he
    unfold get_weather_forecast at he
    cases hp : parseDate d with
    | none => simp [hp] at he
    | some req =>
      simp only [hp] at he
      by_cases hr : req.toRataDie < w.today.toRataDie
          ∨ w.today.toRataDie + 10 < req.toRataDie
      · rw [if_pos hr] at he
        simp at he
      · rw [if_neg hr] at he
        push_neg at hr
        cases hf : w.forecast lat lon with
        | none => simp [hf] at he
        | some dd =>
          simp only [hf] at he
          by_cases hm : d ∈ dd.time
          · exact ⟨req, dd, rfl, rfl, hm, hr.1, hr.2⟩
          · rw [if_neg hm] at he
            simp at he
  · intro req hp hr
    simp only [get_weather_forecast, hp]
    rw [if_pos (Or.inr (show w.today.toRataDie + 10 < req.toRataDie by omega))]
  · intro req dd hp hf hm
    simp only [get_weather_forecast, hp, hf]
    by_cases hr : req.toRataDie < w.today.toRataDie
        ∨ w.today.toRataDie + 10 < req.toRataDie
    · rw [if_pos hr]
    · rw [if_neg hr, if_neg hm]
  · intro req dd tmax tmin prec cc cv hp hr hf hm h1 h2 h3 hcc h4
    have hnr : ¬ (req.toRataDie < w.today.toRataDie
        ∨ w.today.toRataDie + 10 < req.toRataDie) := by omega
    simp only [get_weather_forecast, hp, hf, hcc, h1, h2, h3, h4,
      if_neg hnr, if_pos hm]

/-- Witness for C2: with the clock on 2026-10-12 and a series containing
2026-10-22, the inclusive 10-day boundary returns the entry and the 11th
day returns null with no fetch. -/
theorem forecast_date_window_witness :
    parseDate "2026-10-22" = some ⟨2026, 10, 22⟩
    ∧ (⟨2026, 10, 22⟩ : Date).toRataDie = sampleWorld.today.toRataDie + 10
    ∧ (⟨2026, 10, 23⟩ : Date).toRataDie = sampleWorld.today.toRataDie + 11
    ∧ (get_weather_forecast sampleWorld 52 13 "2026-10-22").result
        = some ⟨"2026-10-22", 19, 9, 0, some 55⟩
    ∧ get_weather_forecast sampleWorld 52 13 "2026-10-23" = ⟨none, false⟩ := by
  refine ⟨by decide, by decide, by decide, ?_, ?_⟩
  · exact (forecast_date_window sampleWorld 52 13 "2026-10-22").2.2.2
      ⟨2026, 10, 22⟩ sampleDaily 19 9 0 [55] 55 (by decide) (by decide) rfl
      (by decide) (by decide) (by decide) (by decide) rfl (by decide)
  · exact (forecast_date_window sampleWorld 52 13 "2026-10-23").2.1
      ⟨2026, 10, 23⟩ (by decide) (by decide)

/-- C10: A date string that does not parse as `YYYY-MM-DD` makes the
forecast-by-date operation return null for every latitude and longitude,
with no exception raised (the `ValueError` path is the `none` branch) and
without performing the forecast fetch. -/
theorem forecast_unparsable_date_null_without_fetch
    (w : WeatherWorld) (lat lon : Coord) (s : String)
    (h : parseDate s = none) :
    get_weather_forecast w lat lon s = ⟨none, false⟩ := by
  unfold get_weather_forecast
  rw [h]

/-- Witness for C10: the string "tomorrow" does not parse, and the call
returns null without fetching. -/
theorem forecast_unparsable_date_null_without_fetch_witness :
    parseDate "tomorrow" = none
    ∧ get_weather_forecast sampleWorld 52 13 "tomorrow" = ⟨none, false⟩ :=
  ⟨by decide,
    forecast_unparsable_date_null_without_fetch sampleWorld 52 13 "tomorrow"
      (by decide)⟩

/-- C3: When the natural-language date parser fails on a phrase, the
forecast-by-phrase tool falls back to the current date in the reference
timezone and returns exactly what the forecast-by-date tool returns for the
same city and country at that date. -/
theorem phrase_unparsable_falls_back_to_today (w : WeatherWorld)
    (city country phrase : String) (h : w.dateparse phrase = none) :
    get_weather_forecast_from_city_name_date_phrase w city country phrase
      = get_weather_forecast_from_city_name w city country
          w.nowBerlin.formatISO := by
  unfold get_weather_forecast_from_city_name_date_phrase
  rw [h]

/-- Witness for C3: the empty phrase is unparsable in `sampleWorld`, and the
phrase tool agrees with the date tool at today's date. -/
theorem phrase_unparsable_falls_back_to_today_witness :
    sampleWorld.dateparse "" = none
    ∧ get_weather_forecast_from_city_name_date_phrase sampleWorld
        "Berlin" "Germany" ""
      = get_weather_forecast_from_city_name sampleWorld "Berlin" "Germany"
          sampleWorld.nowBerlin.formatISO :=
  ⟨rfl,
    phrase_unparsable_falls_back_to_today sampleWorld "Berlin" "Germany" "" rfl⟩

/-- C4: Weather-by-city returns null (not an exception: the error paths are
`none` in the model) when geocoding yields zero results or fails outright;
and when geocoding yields hits, only the first hit's coordinates determine
the outcome. -/
theorem weather_by_city_geocoding_null_and_first
    (w : WeatherWorld) (city country : String) :
    (w.geo city country = some [] →
      get_weather_from_city_name w city country = none)
    ∧ (w.geo city country = none →
      get_weather_from_city_name w city country = none)
    ∧ (∀ (hit : GeoHit) (rest : List GeoHit),
        get_latitude_longitude w.pyFloat (some (hit :: rest))
          = get_latitude_longitude w.pyFloat (some [hit]))
    ∧ (∀ (hit : GeoHit) (rest : List GeoHit),
        w.geo city country = some (hit :: rest) →
        get_weather_from_city_name w city country
          = match w.pyFloat hit.lat, w.pyFloat hit.lon with
            | some la, some lo => w.current la lo
            | _, _ => none) := by
  refine ⟨?_, ?_, ?_, ?_⟩
  · intro hg
    unfold get_weather_from_city_name
    rw [hg]
    rfl
  · intro hg
    unfold get_weather_from_city_name
    rw [hg]
    rfl
  · intro hit rest
    rfl
  · intro hit rest hg
    have hfirst : get_latitude_longitude w.pyFloat (some (hit :: rest))
        = match w.pyFloat hit.lat, w.pyFloat hit.lon with
          | some la, some lo => some (la, lo)
          | _, _ => none := rfl
    unfold get_weather_from_city_name
    rw [hg, hfirst]
    cases w.pyFloat hit.lat <;> cases w.pyFloat hit.lon <;> rfl

/-- Witness for C4: an empty geocoding result yields null, and a trailing
second hit does not change the resolved coordinates. -/
theorem weather_by_city_geocoding_null_and_first_witness :
    emptyGeoWorld.geo "Atlantis" "Nowhere" = some []
    ∧ get_weather_from_city_name emptyGeoWorld "Atlantis" "Nowhere" = none
    ∧ get_latitude_longitude sampleWorld.pyFloat
          (some [⟨"52.52", "13.40"⟩, ⟨"48.14", "11.58"⟩])
        = get_latitude_longitude sampleWorld.pyFloat
          (some [⟨"52.52", "13.40"⟩]) := by
  refine ⟨rfl, ?_, ?_⟩
  · exact (weather_by_city_geocoding_null_and_first emptyGeoWorld
      "Atlantis" "Nowhere").1 rfl
  · exact (weather_by_city_geocoding_null_and_first sampleWorld
      "Berlin" "Germany").2.2.1 ⟨"52.52", "13.40"⟩ [⟨"48.14", "11.58"⟩]

/-- C7: The chat endpoint always answers with a `response` string envelope:
an internal failure is reported in-band as an error description, an empty
orchestrator answer becomes the apologetic message, and a nonempty answer
passes through; no exception crosses the boundary (the handler is total). -/
theorem chat_endpoint_in_band_errors (e ans : String) (h : ans ≠ "") :
    chat (Except.error e) = ⟨"A error occurred: " ++ e⟩
    ∧ chat (Except.ok "") = ⟨"Sorry, I was not able to generate an answer."⟩
    ∧ chat (Except.ok ans) = ⟨ans⟩
    ∧ (∀ r : Except String String, ∃ s, chat r = ⟨s⟩) := by
  refine ⟨rfl, rfl, ?_, ?_⟩
  · show (if ans = "" then (⟨"Sorry, I was not able to generate an answer."⟩ : ChatResponse)
        else ⟨ans⟩) = ⟨ans⟩
    rw [if_neg h]
  · intro r
    exact ⟨(chat r).response, rfl⟩

/-- Witness for C7: a concrete failure, and a concrete nonempty answer. -/
theorem chat_endpoint_in_band_errors_witness :
    ("It is sunny." : String) ≠ ""
    ∧ chat (Except.error "boom") = ⟨"A error occurred: boom"⟩
    ∧ chat (Except.ok "It is sunny.") = ⟨"It is sunny."⟩ := by
  refine ⟨by decide, ?_, ?_⟩
  · exact (chat_endpoint_in_band_errors "boom" "It is sunny." (by decide)).1
  · exact (chat_endpoint_in_band_errors "boom" "It is sunny." (by decide)).2.2.1

/-- C9: The retriever service is constructed with the default top-K of 5,
its query hits the similarity index with exactly that K, and the retrieval
tool output is the page contents of those hits joined in order with
blank-line separators. -/
theorem retrieval_top5_blank_line_concat (search : String → Nat → List Document)
    (q : String) :
    default_top_k = 5
    ∧ (get_retriever search).top_k = 5
    ∧ (get_retriever search).query q = search q 5
    ∧ retriever_tool (get_retriever search) q
        = String.intercalate "\n\n" ((search q 5).map Document.page_content) :=
  ⟨rfl, rfl, rfl, rfl⟩
